import Mathlib

/-!
Verification development for the `react-sway` infinite-scroll component
(`src/react-sway/src/ReactSway.tsx`).

The component's scroll core is embedded shallowly:

* positions, velocities and configuration values are modelled over an
  arbitrary linear ordered field with a floor structure (instantiated at `ℚ`
  for concrete evaluation and at `ℝ` for the physics step, whose friction
  decay uses a real power `Math.pow`);
* the mutable refs of the component (`positionRef`, `velocityRef`,
  `loopPointRef`, `autoScrollPropRef`, `autoScrollEnabledRef`,
  `isPausedRef`, `isDraggingRef`, `inactivityTimerRef`) become fields of a
  `ComponentState` record, and each handler becomes a pure state
  transformer;
* DOM publication (`style.transform`) is modelled by the `transform` field,
  and the `onPause`/`onResume`/`onScroll` callbacks by an event count or
  list appended to whenever the code would invoke them.
-/

/-- A JavaScript number as seen by `Number.isFinite`: either a finite value
or one of `NaN`/`Infinity`/`-Infinity` (which `Number.isFinite` rejects). -/
inductive JSNumber (α : Type) where
  | finite (val : α)
  | nonFinite
deriving DecidableEq

/-- Default friction coefficient applied to velocity each frame
(`DEFAULT_FRICTION = 0.95`). -/
def DEFAULT_FRICTION : ℚ := 0.95

/-- Default delay in milliseconds before auto-scroll resumes
(`DEFAULT_RESUME_DELAY = 2000`). -/
def DEFAULT_RESUME_DELAY : ℚ := 2000

/-- Default scroll speed in pixels per frame at 60fps (`DEFAULT_SPEED = 0.5`). -/
def DEFAULT_SPEED : ℚ := 0.5

/-- Maximum deltaTime cap to prevent physics instability (`MAX_DELTA_TIME = 3`). -/
def MAX_DELTA_TIME : ℚ := 3

/-- `normalizedFriction`: `Number.isFinite(friction) ?
Math.min(Math.max(friction, 0), 1) : DEFAULT_FRICTION`. -/
def normalizedFriction {α : Type} [LinearOrderedField α] : JSNumber α → α
  | .finite f => min (max f 0) 1
  | .nonFinite => (DEFAULT_FRICTION : α)

/-- `normalizedResumeDelay`: `Number.isFinite(resumeDelay) ?
Math.max(0, resumeDelay) : DEFAULT_RESUME_DELAY`. -/
def normalizedResumeDelay {α : Type} [LinearOrderedField α] : JSNumber α → α
  | .finite r => max 0 r
  | .nonFinite => (DEFAULT_RESUME_DELAY : α)

/-- `normalizedSpeed`: `Number.isFinite(speed) ? Math.max(0, speed) :
DEFAULT_SPEED`. -/
def normalizedSpeed {α : Type} [LinearOrderedField α] : JSNumber α → α
  | .finite v => max 0 v
  | .nonFinite => (DEFAULT_SPEED : α)

/-- Truncation toward zero, as used by the JavaScript `%` operator on the
quotient: for `x ≥ 0` the floor, for `x < 0` the ceiling. -/
def jsTrunc {α : Type} [LinearOrderedField α] [FloorRing α] (x : α) : ℤ :=
  if 0 ≤ x then ⌊x⌋ else ⌈x⌉

/-- The JavaScript remainder operator `a % b`: `a - b * trunc(a / b)`, so the
result carries the sign of the dividend `a`. -/
def jsMod {α : Type} [LinearOrderedField α] [FloorRing α] (a b : α) : α :=
  a - b * (jsTrunc (a / b) : α)

/-- First loop of `wrapPosition`: `while (wrappedPosition > 0)
wrappedPosition -= currentLoopPoint`. The `0 < L` guard reflects that the
loop is only reached when `currentLoopPoint > 0`. -/
def wrapDown {α : Type} [LinearOrderedField α] [FloorRing α] (L p : α) : α :=
  if h : 0 < L ∧ 0 < p then wrapDown L (p - L) else p
termination_by (⌈p / L⌉).toNat
decreasing_by
  have hL : 0 < L := h.1
  have hp : 0 < p := h.2
  have hq : 0 < p / L := div_pos hp hL
  have h1 : 0 < ⌈p / L⌉ := Int.ceil_pos.mpr hq
  have h2 : (p - L) / L = p / L - 1 := by
    field_simp
  have h3 : ⌈(p - L) / L⌉ = ⌈p / L⌉ - 1 := by
    rw [h2, Int.ceil_sub_one]
  omega

/-- Second loop of `wrapPosition`: `while (wrappedPosition <
-currentLoopPoint * 2) wrappedPosition += currentLoopPoint`. -/
def wrapUp {α : Type} [LinearOrderedField α] [FloorRing α] (L p : α) : α :=
  if h : 0 < L ∧ p < -L * 2 then wrapUp L (p + L) else p
termination_by (⌈(-L * 2 - p) / L⌉).toNat
decreasing_by
  have hL : 0 < L := h.1
  have hp : p < -L * 2 := h.2
  have hq : 0 < (-L * 2 - p) / L := div_pos (by linarith) hL
  have h1 : 0 < ⌈(-L * 2 - p) / L⌉ := Int.ceil_pos.mpr hq
  have h2 : (-L * 2 - (p + L)) / L = (-L * 2 - p) / L - 1 := by
    field_simp
    ring
  have h3 : ⌈(-L * 2 - (p + L)) / L⌉ = ⌈(-L * 2 - p) / L⌉ - 1 := by
    rw [h2, Int.ceil_sub_one]
  omega

/-- `wrapPosition`: returns the raw position unchanged when
`currentLoopPoint <= 0`, otherwise runs the two wrap loops. -/
def wrapPosition {α : Type} [LinearOrderedField α] [FloorRing α] (L p : α) : α :=
  if L ≤ 0 then p else wrapUp L (wrapDown L p)

/-- `renderPosition`'s visual offset: `rawPosition % (currentLoopPoint || 1)`,
then subtract `currentLoopPoint` when the remainder is positive and
`currentLoopPoint > 0`. -/
def visualPosition {α : Type} [LinearOrderedField α] [FloorRing α] (L p : α) : α :=
  let v := jsMod p (if L = 0 then 1 else L)
  if 0 < v ∧ 0 < L then v - L else v

/-- The `direction` prop: `'down' | 'up'`. -/
inductive Direction where
  | down
  | up
deriving DecidableEq

/-- `const directionMultiplier = direction === 'down' ? 1 : -1`. -/
def directionMultiplier {α : Type} [LinearOrderedField α] : Direction → α
  | .down => 1
  | .up => -1

/-- The component's mutable refs gathered into one record. `transform` is the
vertical offset last written to `style.transform`; `scrollEvents` lists the
arguments of the `onScroll` calls made so far; `pausedCount`/`resumedCount`
count the `onPause`/`onResume` calls. -/
structure ComponentState (α : Type) where
  /-- `positionRef.current` -/
  position : α
  /-- `velocityRef.current` -/
  velocity : α
  /-- vertical offset published by `renderPosition` -/
  transform : α
  /-- arguments of the `onScroll` calls, oldest first -/
  scrollEvents : List α
  /-- `loopPointRef.current` -/
  loopPoint : α
  /-- `autoScrollPropRef.current` -/
  autoScrollProp : Bool
  /-- `autoScrollEnabledRef.current` (the live gate) -/
  autoScrollEnabled : Bool
  /-- `isPausedRef.current` -/
  isPaused : Bool
  /-- `isDraggingRef.current` -/
  isDragging : Bool
  /-- whether `inactivityTimerRef.current` is non-null (a resume timer is armed) -/
  timerPending : Bool
  /-- number of `onPause` calls so far -/
  pausedCount : Nat
  /-- number of `onResume` calls so far -/
  resumedCount : Nat

/-- `clearInactivityTimer`: cancel and null out the pending resume timer. -/
def clearInactivityTimer {α : Type} (s : ComponentState α) : ComponentState α :=
  { s with timerPending := false }

/-- `renderPosition(rawPosition)`: publish the visual offset derived from the
raw position (the container is assumed present). -/
def renderPosition {α : Type} [LinearOrderedField α] [FloorRing α]
    (s : ComponentState α) (rawPosition : α) : ComponentState α :=
  { s with transform := visualPosition s.loopPoint rawPosition }

/-- `commitPosition(nextPosition)`: no-op when equal to the stored position,
otherwise store it, publish the visual transform and call `onScroll`. -/
def commitPosition {α : Type} [LinearOrderedField α] [FloorRing α]
    (s : ComponentState α) (nextPosition : α) : ComponentState α :=
  if s.position = nextPosition then s
  else
    let s1 := { s with position := nextPosition }
    let s2 := renderPosition s1 nextPosition
    { s2 with scrollEvents := s2.scrollEvents ++ [nextPosition] }

/-- `pauseAutoScroll`: a no-op unless `pauseOnInteraction`; otherwise turn the
live gate off, call `onPause`, and clear the pending resume timer. -/
def pauseAutoScroll {α : Type} (pauseOnInteraction : Bool)
    (s : ComponentState α) : ComponentState α :=
  if !pauseOnInteraction then s
  else
    clearInactivityTimer
      { s with autoScrollEnabled := false, pausedCount := s.pausedCount + 1 }

/-- `scheduleAutoScrollResume`: bail out unless `pauseOnInteraction`, the
`autoScroll` policy is on and no explicit pause is active; otherwise replace
any pending resume timer with a fresh one. -/
def scheduleAutoScrollResume {α : Type} (pauseOnInteraction : Bool)
    (s : ComponentState α) : ComponentState α :=
  if !pauseOnInteraction || !s.autoScrollProp || s.isPaused then s
  else { (clearInactivityTimer s) with timerPending := true }

/-- The resume timer's callback firing after `normalizedResumeDelay` elapses.
A timer that is not pending was cancelled by `clearTimeout` and never runs.
The callback nulls the timer ref, re-checks the policy flag and the explicit
pause, then re-enables the live gate and calls `onResume`. -/
def fireResumeTimer {α : Type} (s : ComponentState α) : ComponentState α :=
  if !s.timerPending then s
  else
    let s1 := { s with timerPending := false }
    if !s1.autoScrollProp || s1.isPaused then s1
    else { s1 with autoScrollEnabled := true, resumedCount := s1.resumedCount + 1 }

/-- `togglePause` (Space key): flip the explicit pause; on pause, clear the
timer, gate off and call `onPause`; on unpause, clear the timer, gate on and
call `onResume` only when the `autoScroll` policy flag is on. -/
def togglePause {α : Type} (s : ComponentState α) : ComponentState α :=
  let newPaused := !s.isPaused
  let s1 := { s with isPaused := newPaused }
  if newPaused then
    { (clearInactivityTimer s1) with
        autoScrollEnabled := false, pausedCount := s1.pausedCount + 1 }
  else
    let s2 := { (clearInactivityTimer s1) with autoScrollEnabled := true }
    if s2.autoScrollProp then { s2 with resumedCount := s2.resumedCount + 1 } else s2

/-- The `useEffect` synchronizing the `autoScroll` prop: store the new policy
value; when it turned false, clear any pending resume timer and force the
live gate back on. -/
def setAutoScrollProp {α : Type} (value : Bool) (s : ComponentState α) :
    ComponentState α :=
  let s1 := { s with autoScrollProp := value }
  if !value then { (clearInactivityTimer s1) with autoScrollEnabled := true } else s1

/-- The per-frame velocity damping: `if (Math.abs(velocity) > 0.1)
velocity *= Math.pow(normalizedFriction, deltaTime); else velocity = 0`.
`Math.pow` on reals is the real power `Real.rpow`. -/
noncomputable def decayVelocity (friction deltaTime v : ℝ) : ℝ :=
  if 0.1 < |v| then v * friction ^ deltaTime else 0

/-- One call of `animate` (the frame callback), given the normalized
`deltaTime` before the `MAX_DELTA_TIME` clamp: damp the velocity, add the
autonomous term when the policy flag and live gate allow it and no drag is
active, add the momentum term when not dragging and the damped velocity is
above the dead zone, wrap, and commit. -/
noncomputable def animate (friction speed : ℝ) (direction : Direction)
    (rawDeltaTime : ℝ) (s : ComponentState ℝ) : ComponentState ℝ :=
  let deltaTime := min rawDeltaTime (MAX_DELTA_TIME : ℝ)
  let v := decayVelocity friction deltaTime s.velocity
  let s1 := { s with velocity := v }
  let p1 := s1.position
  let p2 :=
    if s1.autoScrollProp ∧ s1.autoScrollEnabled ∧ ¬s1.isDragging then
      p1 + directionMultiplier direction * speed * deltaTime
    else p1
  let p3 := if ¬s1.isDragging ∧ 0.1 < |v| then p2 + v * deltaTime else p2
  commitPosition s1 (wrapPosition s1.loopPoint p3)

theorem wrapDown_nonpos {α : Type} [LinearOrderedField α] [FloorRing α]
    (L p : α) (hL : 0 < L) : wrapDown L p ≤ 0 := by
  induction p using wrapDown.induct (L := L) with
  | case1 p hg ih =>
    rw [wrapDown.eq_def, dif_pos hg]
    exact ih
  | case2 p hg =>
    rw [wrapDown.eq_def, dif_neg hg]
    by_contra hc
    push_neg at hc
    exact hg ⟨hL, hc⟩

theorem wrapDown_id {α : Type} [LinearOrderedField α] [FloorRing α]
    (L p : α) (hp : p ≤ 0) : wrapDown L p = p := by
  rw [wrapDown.eq_def, dif_neg]
  rintro ⟨h1, h2⟩
  exact absurd h2 (not_lt.mpr hp)

theorem wrapUp_range {α : Type} [LinearOrderedField α] [FloorRing α]
    (L p : α) (hL : 0 < L) (hp : p ≤ 0) :
    -L * 2 ≤ wrapUp L p ∧ wrapUp L p ≤ 0 := by
  induction p using wrapUp.induct (L := L) with
  | case1 p hg ih =>
    rw [wrapUp.eq_def, dif_pos hg]
    exact ih (by nlinarith [hg.2])
  | case2 p hg =>
    rw [wrapUp.eq_def, dif_neg hg]
    refine ⟨?_, hp⟩
    by_contra hc
    push_neg at hc
    exact hg ⟨hL, hc⟩

theorem wrapUp_id {α : Type} [LinearOrderedField α] [FloorRing α]
    (L p : α) (hp : -L * 2 ≤ p) : wrapUp L p = p := by
  rw [wrapUp.eq_def, dif_neg]
  rintro ⟨h1, h2⟩
  exact absurd h2 (not_lt.mpr hp)

theorem wrapPosition_mem {α : Type} [LinearOrderedField α] [FloorRing α]
    (L p : α) (hL : 0 < L) :
    -L * 2 ≤ wrapPosition L p ∧ wrapPosition L p ≤ 0 := by
  unfold wrapPosition
  rw [if_neg (not_le.mpr hL)]
  exact wrapUp_range L _ hL (wrapDown_nonpos L p hL)

theorem wrapPosition_id_of_nonpos {α : Type} [LinearOrderedField α] [FloorRing α]
    (L p : α) (hL : L ≤ 0) : wrapPosition L p = p := by
  unfold wrapPosition
  rw [if_pos hL]

theorem wrapPosition_id_of_mem {α : Type} [LinearOrderedField α] [FloorRing α]
    (L p : α) (h1 : -L * 2 ≤ p) (h2 : p ≤ 0) : wrapPosition L p = p := by
  unfold wrapPosition
  split
  · rfl
  · rw [wrapDown_id L p h2, wrapUp_id L p h1]

theorem jsMod_mem_of_nonneg {α : Type} [LinearOrderedField α] [FloorRing α]
    (a b : α) (hb : 0 < b) (ha : 0 ≤ a) : 0 ≤ jsMod a b ∧ jsMod a b < b := by
  have hq : 0 ≤ a / b := div_nonneg ha hb.le
  have heq : jsMod a b = b * Int.fract (a / b) := by
    unfold jsMod jsTrunc
    rw [if_pos hq, Int.fract]
    field_simp
  rw [heq]
  constructor
  · exact mul_nonneg hb.le (Int.fract_nonneg _)
  · calc b * Int.fract (a / b) < b * 1 :=
        mul_lt_mul_of_pos_left (Int.fract_lt_one _) hb
      _ = b := mul_one b

theorem jsMod_mem_of_neg {α : Type} [LinearOrderedField α] [FloorRing α]
    (a b : α) (hb : 0 < b) (ha : a < 0) : -b < jsMod a b ∧ jsMod a b ≤ 0 := by
  have hq : a / b < 0 := div_neg_of_neg_of_pos ha hb
  have heq : jsMod a b = b * (a / b - (⌈a / b⌉ : α)) := by
    unfold jsMod jsTrunc
    rw [if_neg (not_le.mpr hq)]
    field_simp
  have h1 : a / b - (⌈a / b⌉ : α) ≤ 0 := sub_nonpos.mpr (Int.le_ceil _)
  have h2 : -1 < a / b - (⌈a / b⌉ : α) := by
    have := Int.ceil_lt_add_one (a / b)
    linarith
  rw [heq]
  constructor
  · calc -b = b * (-1) := by ring
      _ < b * (a / b - (⌈a / b⌉ : α)) := mul_lt_mul_of_pos_left h2 hb
  · exact mul_nonpos_of_nonneg_of_nonpos hb.le h1

theorem commitPosition_position {α : Type} [LinearOrderedField α] [FloorRing α]
    (s : ComponentState α) (p : α) : (commitPosition s p).position = p := by
  unfold commitPosition renderPosition
  split
  · next h => exact h
  · rfl

theorem visualPosition_zero_eq {α : Type} [LinearOrderedField α] [FloorRing α]
    (p : α) : visualPosition (0:α) p = p - (jsTrunc p : α) := by
  unfold visualPosition
  simp only [if_pos rfl, lt_irrefl, and_false, if_false, if_true]
  unfold jsMod
  rw [div_one, one_mul]

theorem animate_position_mem (f sp : ℝ) (d : Direction) (dt : ℝ)
    (s : ComponentState ℝ) (hs : 0 < s.loopPoint) :
    -s.loopPoint * 2 ≤ (animate f sp d dt s).position ∧
      (animate f sp d dt s).position ≤ 0 := by
  unfold animate
  rw [commitPosition_position]
  exact wrapPosition_mem _ _ hs

/-- C1, counterexample: at loopPoint 1 the input -2 = -2×loopPoint is returned
unchanged by wrapPosition (neither while loop fires), and -2 is not in the
half-open interval (-2×loopPoint, 0] claimed by the spec, whose lower end is
open. -/
theorem wrapPosition_endpoint_cex :
    wrapPosition (1:ℚ) (-2) = -2 ∧
      ¬(-(1:ℚ) * 2 < wrapPosition (1:ℚ) (-2) ∧ wrapPosition (1:ℚ) (-2) ≤ 0) := by
  have h : wrapPosition (1:ℚ) (-2) = -2 :=
    wrapPosition_id_of_mem 1 (-2) (by norm_num) (by norm_num)
  refine ⟨h, ?_⟩
  rw [h]
  norm_num

/-- C1, amended: for every loopPoint > 0, wrapPosition maps any input into the
closed interval [-2×loopPoint, 0] (the endpoint -2×loopPoint is attainable),
and consequently the position committed by any integration step (which passes
its candidate through wrapPosition before commitPosition) lies in
[-2×loopPoint, 0]. -/
theorem wrapPosition_and_animate_range (L p f sp dt : ℝ) (d : Direction)
    (s : ComponentState ℝ) (hL : 0 < L) (hs : 0 < s.loopPoint) :
    (-L * 2 ≤ wrapPosition L p ∧ wrapPosition L p ≤ 0) ∧
      (-s.loopPoint * 2 ≤ (animate f sp d dt s).position ∧
        (animate f sp d dt s).position ≤ 0) :=
  ⟨wrapPosition_mem L p hL, animate_position_mem f sp d dt s hs⟩

/-- Witness for C1 at loopPoint 1, input 5, and a concrete frame step. -/
theorem wrapPosition_and_animate_range_witness :
    (0 < (1:ℝ) ∧
      0 < (ComponentState.mk (-1:ℝ) 0 0 [] 1 true true false false false 0 0).loopPoint) ∧
    ((-(1:ℝ) * 2 ≤ wrapPosition (1:ℝ) 5 ∧ wrapPosition (1:ℝ) 5 ≤ 0) ∧
      (-(ComponentState.mk (-1:ℝ) 0 0 [] 1 true true false false false 0 0).loopPoint * 2 ≤
          (animate 0.95 0.5 Direction.up 1
            (ComponentState.mk (-1:ℝ) 0 0 [] 1 true true false false false 0 0)).position ∧
        (animate 0.95 0.5 Direction.up 1
          (ComponentState.mk (-1:ℝ) 0 0 [] 1 true true false false false 0 0)).position ≤ 0)) :=
  ⟨⟨by norm_num, by norm_num⟩,
    wrapPosition_and_animate_range 1 5 0.95 0.5 1 Direction.up _ (by norm_num) (by norm_num)⟩

/-- C2, counterexample: with friction 1 ∈ [0,1], deltaTime 1 ≥ 0 and velocity
0.1, the decay step snaps the velocity to 0 (the |v| > 0.1 branch is not
taken), so its magnitude is not |v| × friction^deltaTime = 0.1. -/
theorem decayVelocity_snap_cex :
    (0:ℝ) ≤ 1 ∧ (1:ℝ) ≤ 1 ∧ (0:ℝ) ≤ 1 ∧
      |decayVelocity 1 1 0.1| ≠ |(0.1:ℝ)| * (1:ℝ) ^ (1:ℝ) := by
  have habs : |(0.1:ℝ)| = 0.1 := abs_of_pos (by norm_num)
  have h1 : decayVelocity 1 1 0.1 = 0 := by
    unfold decayVelocity
    rw [if_neg (by rw [habs]; norm_num)]
  refine ⟨by norm_num, le_refl 1, by norm_num, ?_⟩
  rw [h1, habs, Real.one_rpow, abs_zero]
  norm_num

/-- C2, amended: for friction ∈ [0,1] and deltaTime ≥ 0 the velocity magnitude
after the decay step is never larger than |v|; when additionally |v| > 0.1
(the dead-zone test of the multiply branch) it equals exactly
|v| × friction^deltaTime. Velocities with |v| ≤ 0.1 are snapped to 0. -/
theorem decayVelocity_decay_spec (f dt v : ℝ) (hf0 : 0 ≤ f) (hf1 : f ≤ 1)
    (hdt : 0 ≤ dt) :
    |decayVelocity f dt v| ≤ |v| ∧
      (0.1 < |v| → |decayVelocity f dt v| = |v| * f ^ dt) := by
  unfold decayVelocity
  split
  · next h =>
    have hpow0 : 0 ≤ f ^ dt := Real.rpow_nonneg hf0 dt
    have hpow1 : f ^ dt ≤ 1 := Real.rpow_le_one hf0 hf1 hdt
    have habs : |v * f ^ dt| = |v| * f ^ dt := by
      rw [abs_mul, abs_of_nonneg hpow0]
    refine ⟨?_, fun _ => habs⟩
    rw [habs]
    exact mul_le_of_le_one_right (abs_nonneg v) hpow1
  · next h =>
    exact ⟨by simp, fun hv => absurd hv h⟩

/-- Witness for C2 at friction 0.95, deltaTime 2, velocity 7. -/
theorem decayVelocity_decay_spec_witness :
    ((0:ℝ) ≤ 0.95 ∧ (0.95:ℝ) ≤ 1 ∧ (0:ℝ) ≤ 2) ∧
      (|decayVelocity 0.95 2 7| ≤ |(7:ℝ)| ∧
        (0.1 < |(7:ℝ)| → |decayVelocity 0.95 2 7| = |(7:ℝ)| * (0.95:ℝ) ^ (2:ℝ))) :=
  ⟨⟨by norm_num, by norm_num, by norm_num⟩,
    decayVelocity_decay_spec 0.95 2 7 (by norm_num) (by norm_num) (by norm_num)⟩

/-- C3, counterexample: starting from a state where the live gate is already
off (a preceding interaction suppressed it) and no explicit pause is active,
pressing Space twice leaves the gate on — not equal to its pre-toggle value
false. -/
theorem togglePause_twice_cex :
    ((ComponentState.mk (0:ℝ) 0 0 [] 0 true false false false false 0 0).autoScrollEnabled
        = false) ∧
      (togglePause (togglePause
        (ComponentState.mk (0:ℝ) 0 0 [] 0 true false false false false 0 0))).autoScrollEnabled
        = true :=
  ⟨rfl, rfl⟩

/-- C3, amended: toggling explicit pause twice from an unpaused state always
leaves the live gate on (so it equals the pre-toggle value exactly when the
gate was on before the first toggle), restores isPaused, and the resume
notification fires on the second toggle if and only if the autoScroll policy
flag is true (the first toggle fires none). -/
theorem togglePause_twice_spec (s : ComponentState ℝ) (hp : s.isPaused = false) :
    (togglePause (togglePause s)).autoScrollEnabled = true ∧
      (togglePause (togglePause s)).isPaused = false ∧
      (s.autoScrollEnabled = true →
        (togglePause (togglePause s)).autoScrollEnabled = s.autoScrollEnabled) ∧
      (togglePause s).resumedCount = s.resumedCount ∧
      ((togglePause (togglePause s)).resumedCount =
        s.resumedCount + if s.autoScrollProp = true then 1 else 0) := by
  cases hq : s.autoScrollProp <;>
    simp [togglePause, clearInactivityTimer, hp, hq]

/-- Witness for C3 at an unpaused state with the gate and the policy flag on. -/
theorem togglePause_twice_spec_witness :
    (ComponentState.mk (0:ℝ) 0 0 [] 0 true true false false false 0 0).isPaused = false ∧
      ((togglePause (togglePause
          (ComponentState.mk (0:ℝ) 0 0 [] 0 true true false false false 0 0))).autoScrollEnabled
          = true ∧
        (togglePause (togglePause
          (ComponentState.mk (0:ℝ) 0 0 [] 0 true true false false false 0 0))).isPaused = false ∧
        ((ComponentState.mk (0:ℝ) 0 0 [] 0 true true false false false 0 0).autoScrollEnabled
            = true →
          (togglePause (togglePause
            (ComponentState.mk (0:ℝ) 0 0 [] 0 true true false false false 0 0))).autoScrollEnabled
            = (ComponentState.mk (0:ℝ) 0 0 [] 0 true true false false false 0 0).autoScrollEnabled) ∧
        (togglePause
          (ComponentState.mk (0:ℝ) 0 0 [] 0 true true false false false 0 0)).resumedCount
          = (ComponentState.mk (0:ℝ) 0 0 [] 0 true true false false false 0 0).resumedCount ∧
        ((togglePause (togglePause
            (ComponentState.mk (0:ℝ) 0 0 [] 0 true true false false false 0 0))).resumedCount =
          (ComponentState.mk (0:ℝ) 0 0 [] 0 true true false false false 0 0).resumedCount +
            if (ComponentState.mk (0:ℝ) 0 0 [] 0 true true false false false 0 0).autoScrollProp
                = true then 1 else 0)) :=
  ⟨rfl, togglePause_twice_spec (ComponentState.mk (0:ℝ) 0 0 [] 0 true true false false false 0 0) rfl⟩

/-- C4, counterexample: with pauseOnInteraction = false the interaction-driven
pause is a complete no-op — it neither clears a pending resume timer nor
turns the live gate off, contradicting the unconditional clearing/gating the
claim asserts for every configuration. -/
theorem pauseAutoScroll_noop_cex :
    ((ComponentState.mk (0:ℝ) 0 0 [] 0 true true false false true 0 0).timerPending = true) ∧
      (pauseAutoScroll false
        (ComponentState.mk (0:ℝ) 0 0 [] 0 true true false false true 0 0)).autoScrollEnabled
        = true ∧
      (pauseAutoScroll false
        (ComponentState.mk (0:ℝ) 0 0 [] 0 true true false false true 0 0)).timerPending
        = true :=
  ⟨rfl, rfl, rfl⟩

/-- C4, amended: when pauseOnInteraction is true, the interaction-driven pause
clears any pending resume timer, sets the live gate off and invokes onPause;
when pauseOnInteraction is false it leaves the state entirely unchanged (so
onPause is invoked if and only if pauseOnInteraction is true). -/
theorem pauseAutoScroll_spec (s : ComponentState ℝ) :
    (pauseAutoScroll true s).autoScrollEnabled = false ∧
      (pauseAutoScroll true s).timerPending = false ∧
      (pauseAutoScroll true s).pausedCount = s.pausedCount + 1 ∧
      pauseAutoScroll false s = s :=
  ⟨rfl, rfl, rfl, rfl⟩

/-- C5: turning the autoScroll policy flag off while a resume timer is pending
clears the timer, forces the live gate back on, fires no resume notification,
and the timer elapsing afterwards is a no-op (the timeout was cancelled), so
onResume never fires for that interaction. -/
theorem setAutoScrollProp_false_spec (s : ComponentState ℝ)
    (ht : s.timerPending = true) :
    (setAutoScrollProp false s).timerPending = false ∧
      (setAutoScrollProp false s).autoScrollEnabled = true ∧
      (setAutoScrollProp false s).resumedCount = s.resumedCount ∧
      fireResumeTimer (setAutoScrollProp false s) = setAutoScrollProp false s :=
  ⟨rfl, rfl, rfl, rfl⟩

/-- Witness for C5 at a state with a pending resume timer. -/
theorem setAutoScrollProp_false_spec_witness :
    (ComponentState.mk (0:ℝ) 0 0 [] 0 true false false false true 0 0).timerPending = true ∧
      ((setAutoScrollProp false
          (ComponentState.mk (0:ℝ) 0 0 [] 0 true false false false true 0 0)).timerPending
          = false ∧
        (setAutoScrollProp false
          (ComponentState.mk (0:ℝ) 0 0 [] 0 true false false false true 0 0)).autoScrollEnabled
          = true ∧
        (setAutoScrollProp false
          (ComponentState.mk (0:ℝ) 0 0 [] 0 true false false false true 0 0)).resumedCount
          = (ComponentState.mk (0:ℝ) 0 0 [] 0 true false false false true 0 0).resumedCount ∧
        fireResumeTimer (setAutoScrollProp false
            (ComponentState.mk (0:ℝ) 0 0 [] 0 true false false false true 0 0)) =
          setAutoScrollProp false
            (ComponentState.mk (0:ℝ) 0 0 [] 0 true false false false true 0 0)) :=
  ⟨rfl, setAutoScrollProp_false_spec
    (ComponentState.mk (0:ℝ) 0 0 [] 0 true false false false true 0 0) rfl⟩

/-- C6: for every loopPoint > 0 the visual-position derivation (JavaScript
remainder by loopPoint, minus loopPoint when the remainder is positive)
yields a value in the half-open interval (-loopPoint, 0], for every position
(canonical or not). -/
theorem visualPosition_range_spec (L p : ℝ) (hL : 0 < L) :
    -L < visualPosition L p ∧ visualPosition L p ≤ 0 := by
  unfold visualPosition
  rw [if_neg hL.ne']
  rcases le_or_lt 0 p with hp | hp
  · have hm := jsMod_mem_of_nonneg p L hL hp
    by_cases hv : 0 < jsMod p L
    · rw [if_pos ⟨hv, hL⟩]
      constructor <;> linarith [hm.2]
    · rw [if_neg (by exact fun h => hv h.1)]
      push_neg at hv
      constructor <;> linarith [hm.1]
  · have hm := jsMod_mem_of_neg p L hL hp
    rw [if_neg (by intro h; linarith [hm.2, h.1])]
    exact hm

/-- Witness for C6 at loopPoint 1, position 5. -/
theorem visualPosition_range_spec_witness :
    0 < (1:ℝ) ∧ (-(1:ℝ) < visualPosition (1:ℝ) 5 ∧ visualPosition (1:ℝ) 5 ≤ 0) :=
  ⟨by norm_num, visualPosition_range_spec 1 5 (by norm_num)⟩

/-- C7, counterexample: at loopPoint 0 the wrap is indeed the identity, but the
visual offset is the remainder modulo 1 (the code substitutes modulus 1 via
`currentLoopPoint || 1`), so for raw position -5 the published offset is
-5 % 1 = 0, not the raw position -5. -/
theorem visualPosition_zero_cex :
    wrapPosition (0:ℚ) (-5) = -5 ∧ visualPosition (0:ℚ) (-5) = 0 ∧ (0:ℚ) ≠ -5 := by
  refine ⟨wrapPosition_id_of_nonpos 0 (-5) le_rfl, ?_, by norm_num⟩
  rw [visualPosition_zero_eq]
  unfold jsTrunc
  rw [if_neg (by norm_num)]
  have h5 : ((-5:ℚ)) = ((-5:ℤ):ℚ) := by norm_num
  rw [h5, Int.ceil_intCast]
  norm_num

/-- C7, amended: when loopPoint = 0 the canonical wrap is a no-op
(wrapPosition returns its input unchanged) and no division by zero occurs —
the visual derivation substitutes modulus 1 — but the published visual offset
is the truncated remainder p - trunc(p) (the fractional part with the sign of
p), which equals the raw position only when that fractional part is the whole
value. -/
theorem loopPoint_zero_noop_spec (p : ℝ) :
    wrapPosition (0:ℝ) p = p ∧ visualPosition (0:ℝ) p = p - (jsTrunc p : ℝ) :=
  ⟨wrapPosition_id_of_nonpos 0 p le_rfl, visualPosition_zero_eq p⟩

/-- C8: committing a position equal to the currently committed one is a no-op
— the state (stored position, published transform, onScroll event list) is
returned unchanged — and hence publishing the same position twice produces no
duplicate scroll notification. -/
theorem commitPosition_idempotent_spec (s : ComponentState ℝ) (p : ℝ) :
    commitPosition s s.position = s ∧
      commitPosition (commitPosition s p) p = commitPosition s p := by
  have h1 : ∀ t : ComponentState ℝ, commitPosition t t.position = t := by
    intro t
    unfold commitPosition
    rw [if_pos rfl]
  refine ⟨h1 s, ?_⟩
  have h2 := h1 (commitPosition s p)
  rwa [commitPosition_position] at h2

/-- C9, counterexample: a finite negative resumeDelay (-5) is clamped to 0 by
`Math.max(0, resumeDelay)`, not replaced by the documented default 2000 as
the claim asserts. -/
theorem normalizedResumeDelay_negative_cex :
    normalizedResumeDelay (JSNumber.finite (-5 : ℚ)) = 0 ∧
      normalizedResumeDelay (JSNumber.finite (-5 : ℚ)) ≠ (DEFAULT_RESUME_DELAY : ℚ) := by
  constructor <;> decide

/-- C9, amended: non-finite friction, resumeDelay and speed fall back to the
documented defaults 0.95, 2000 and 0.5; a finite friction is clamped into
[0,1] (and kept as-is when already in range); a finite negative resumeDelay
is clamped to 0 rather than defaulted. -/
theorem normalizedConfig_spec (f r : ℝ) (hr : r < 0) :
    normalizedFriction (JSNumber.nonFinite : JSNumber ℝ) = 0.95 ∧
      normalizedResumeDelay (JSNumber.nonFinite : JSNumber ℝ) = 2000 ∧
      normalizedSpeed (JSNumber.nonFinite : JSNumber ℝ) = 0.5 ∧
      0 ≤ normalizedFriction (JSNumber.finite f) ∧
      normalizedFriction (JSNumber.finite f) ≤ 1 ∧
      (0 ≤ f → f ≤ 1 → normalizedFriction (JSNumber.finite f) = f) ∧
      normalizedResumeDelay (JSNumber.finite r) = 0 := by
  refine ⟨?_, ?_, ?_, ?_, ?_, ?_, ?_⟩
  · norm_num [normalizedFriction, DEFAULT_FRICTION]
  · norm_num [normalizedResumeDelay, DEFAULT_RESUME_DELAY]
  · norm_num [normalizedSpeed, DEFAULT_SPEED]
  · exact le_min (le_max_right f 0) zero_le_one
  · exact min_le_right _ _
  · intro h0 h1
    show min (max f 0) 1 = f
    rw [max_eq_left h0, min_eq_left h1]
  · exact max_eq_left hr.le

/-- Witness for C9 at friction 2 (finite, out of range) and resumeDelay -5. -/
theorem normalizedConfig_spec_witness :
    (-5:ℝ) < 0 ∧
      (normalizedFriction (JSNumber.nonFinite : JSNumber ℝ) = 0.95 ∧
        normalizedResumeDelay (JSNumber.nonFinite : JSNumber ℝ) = 2000 ∧
        normalizedSpeed (JSNumber.nonFinite : JSNumber ℝ) = 0.5 ∧
        0 ≤ normalizedFriction (JSNumber.finite (2:ℝ)) ∧
        normalizedFriction (JSNumber.finite (2:ℝ)) ≤ 1 ∧
        (0 ≤ (2:ℝ) → (2:ℝ) ≤ 1 → normalizedFriction (JSNumber.finite (2:ℝ)) = 2) ∧
        normalizedResumeDelay (JSNumber.finite (-5:ℝ)) = 0) :=
  ⟨by norm_num, normalizedConfig_spec 2 (-5) (by norm_num)⟩

/-- C10: while a drag is in progress and the committed position lies in the
closed canonical range [-2×loopPoint, 0] (or loopPoint = 0), a frame step
leaves the committed position, the published transform and the onScroll
event list unchanged — the whole state is unchanged except the velocity,
which goes through the decay step. -/
theorem animate_dragging_spec (f sp : ℝ) (d : Direction) (dt : ℝ)
    (s : ComponentState ℝ) (hd : s.isDragging = true)
    (hp : s.loopPoint = 0 ∨ (-s.loopPoint * 2 ≤ s.position ∧ s.position ≤ 0)) :
    animate f sp d dt s =
      { s with velocity := decayVelocity f (min dt (MAX_DELTA_TIME : ℝ)) s.velocity } := by
  have hwrap : wrapPosition s.loopPoint s.position = s.position := by
    rcases hp with h0 | ⟨h1, h2⟩
    · exact wrapPosition_id_of_nonpos _ _ (le_of_eq h0)
    · exact wrapPosition_id_of_mem _ _ h1 h2
  unfold animate
  simp only [hd, Bool.true_eq_false, not_true_eq_false, and_false, if_false,
    false_and, not_false_eq_true]
  rw [hwrap]
  unfold commitPosition
  rw [if_pos rfl]

/-- Witness for C10 at a dragging state with loopPoint 1 and position -1. -/
theorem animate_dragging_spec_witness :
    ((ComponentState.mk (-1:ℝ) 0 0 [] 1 true true false true false 0 0).isDragging = true ∧
      (-(ComponentState.mk (-1:ℝ) 0 0 [] 1 true true false true false 0 0).loopPoint * 2 ≤
          (ComponentState.mk (-1:ℝ) 0 0 [] 1 true true false true false 0 0).position ∧
        (ComponentState.mk (-1:ℝ) 0 0 [] 1 true true false true false 0 0).position ≤ 0)) ∧
    animate 0.95 0.5 Direction.up 1
        (ComponentState.mk (-1:ℝ) 0 0 [] 1 true true false true false 0 0) =
      { ComponentState.mk (-1:ℝ) 0 0 [] 1 true true false true false 0 0 with
          velocity := decayVelocity 0.95 (min 1 (MAX_DELTA_TIME : ℝ))
            (ComponentState.mk (-1:ℝ) 0 0 [] 1 true true false true false 0 0).velocity } :=
  ⟨⟨rfl, by norm_num, by norm_num⟩,
    animate_dragging_spec 0.95 0.5 Direction.up 1 _ rfl (Or.inr ⟨by norm_num, by norm_num⟩)⟩
